import Mathlib

/-!
Verification development for the Auth0 passwordless-OTP browser extension.

The TypeScript sources are shallowly embedded as pure Lean functions:
storage is an explicit record threaded through the operations, timestamps
are integers (milliseconds since the epoch, matching Date.now), and the
platform crypto primitive (AES-GCM via crypto.subtle, out of scope per the
spec) is idealized as a symbolic authenticated cipher.

File map (source file - Lean section):
  src/auth/types.ts            - data model structures
  src/storage/local-storage.ts - encrypted durable partition
  src/storage/session-storage.ts - volatile partition
  src/storage/index.ts         - unified facade
  src/auth/state-machine.ts    - state machine and rate limiting
  src/auth/message-handlers.ts - request handlers
  src/utils/errors.ts          - error-code mapping
  src/auth/api-client.ts       - retry loop (fetchWithRetry)
  src/auth/token-validator.ts  - ID-token claim validation
  src/auth/validation.ts       - email validation
-/

namespace Auth0Ext

/-- Error codes, from AuthErrorCode in src/auth/types.ts. -/
inductive AuthErrorCode where
  | INVALID_EMAIL
  | INVALID_OTP
  | OTP_EXPIRED
  | RATE_LIMITED
  | NETWORK_ERROR
  | AUTH0_UNAVAILABLE
  | SESSION_EXPIRED
  | REFRESH_FAILED
  | STORAGE_ERROR
  | NOT_AUTHENTICATED
  | VALIDATION_ERROR
  | EMAIL_DOMAIN_NOT_ALLOWED
deriving DecidableEq, Repr

/-- Flow states, from AuthFlowState in src/auth/types.ts. -/
inductive AuthFlowState where
  | LOGGED_OUT
  | PENDING_OTP
  | AUTHENTICATED
  | SESSION_EXPIRED
deriving DecidableEq, Repr

/-- Complete authentication state (AuthState in src/auth/types.ts). -/
structure AuthState where
  email : String
  accessToken : String
  refreshToken : String
  expiresAt : Int
  idToken : Option String
  sessionCreatedAt : Int
deriving DecidableEq, Repr

/-- The session-storage half of AuthState: Omit of the refreshToken field
(what src/storage/session-storage.ts stores under the auth key). -/
structure SessionAuth where
  email : String
  accessToken : String
  expiresAt : Int
  idToken : Option String
  sessionCreatedAt : Int
deriving DecidableEq, Repr

/-- Drop the refreshToken field, as the destructuring in storeAuthState does. -/
def AuthState.toSessionAuth (a : AuthState) : SessionAuth :=
  { email := a.email
    accessToken := a.accessToken
    expiresAt := a.expiresAt
    idToken := a.idToken
    sessionCreatedAt := a.sessionCreatedAt }

/-- Pending OTP request (OTPRequest in src/auth/types.ts).
The codeVerifier field is unused on the passwordless path and omitted. -/
structure OTPRequest where
  email : String
  requestedAt : Int
  attemptCount : Int
  windowStart : Int
deriving DecidableEq, Repr

/-- Cached user profile (UserProfile in src/auth/types.ts). -/
structure UserProfile where
  sub : String
  email : String
  email_verified : Bool
  name : Option String
  picture : Option String
  updatedAt : Int
deriving DecidableEq, Repr

/-- Session metadata stored durably (LocalStorageSchema.sessionMeta). -/
structure SessionMeta where
  createdAt : Int
  email : String
deriving DecidableEq, Repr

/-- Auth0 token endpoint response (TokenResponse in src/auth/types.ts). -/
structure TokenResponse where
  access_token : String
  refresh_token : Option String
  id_token : Option String
  expires_in : Int
deriving DecidableEq, Repr

/-- Modelled from the spec: the platform authenticated cipher (AES-GCM via
crypto.subtle, delegated and out of scope per spec section 1) is idealized
symbolically: a ciphertext is a free term recording the key, the nonce and
the plaintext, and decryption succeeds exactly on terms built with the same
key and nonce. -/
structure Ciphertext where
  key : String
  iv : String
  plaintext : String
deriving DecidableEq, Repr

/-- Modelled from the spec: idealized AES-GCM encryption (platform
primitive). Corresponds to the encrypt helper in src/storage/local-storage.ts
with the random nonce passed explicitly. -/
def encrypt (key iv plaintext : String) : Ciphertext :=
  { key := key, iv := iv, plaintext := plaintext }

/-- Modelled from the spec: idealized AES-GCM decryption (platform
primitive); returns none exactly when the authentication check fails
(wrong key or nonce mismatch). Corresponds to the decrypt helper in
src/storage/local-storage.ts. -/
def decrypt (key iv : String) (c : Ciphertext) : Option String :=
  if c.key = key ∧ c.iv = iv then some c.plaintext else none

/-- Durable partition (chrome.storage.local keys, LocalStorageSchema). -/
structure LocalStorage where
  encryptedRefreshToken : Option Ciphertext
  refreshTokenIV : Option String
  sessionMeta : Option SessionMeta
deriving DecidableEq, Repr

/-- Volatile partition (chrome.storage.session keys, SessionStorageSchema). -/
structure SessionStorage where
  auth : Option SessionAuth
  otpRequest : Option OTPRequest
  userProfile : Option UserProfile
  flowState : Option AuthFlowState
deriving DecidableEq, Repr

/-- Both storage partitions together. -/
structure Store where
  session : SessionStorage
  durable : LocalStorage
deriving DecidableEq, Repr

-- ============================================================================
-- src/storage/local-storage.ts
-- ============================================================================

/-- setRefreshToken: encrypt then store ciphertext and IV side by side.
The fresh random nonce drawn by crypto.getRandomValues is the iv argument. -/
def setRefreshToken (key iv token : String) (ls : LocalStorage) : LocalStorage :=
  { ls with
    encryptedRefreshToken := some (encrypt key iv token)
    refreshTokenIV := some iv }

/-- clearRefreshToken: remove both the ciphertext and the IV entries. -/
def clearRefreshToken (ls : LocalStorage) : LocalStorage :=
  { ls with encryptedRefreshToken := none, refreshTokenIV := none }

/-- getRefreshToken: returns the decrypted token, or none when either entry
is missing; on decryption failure clears both entries (the catch branch)
and returns none. The second component is the storage after the call. -/
def getRefreshToken (key : String) (ls : LocalStorage) :
    Option String × LocalStorage :=
  match ls.encryptedRefreshToken, ls.refreshTokenIV with
  | some ct, some iv =>
    match decrypt key iv ct with
    | some token => (some token, ls)
    | none => (none, clearRefreshToken ls)
  | _, _ => (none, ls)

/-- setSessionMeta: stamps createdAt with Date.now() at the time of the call. -/
def setSessionMeta (now : Int) (email : String) (ls : LocalStorage) : LocalStorage :=
  { ls with sessionMeta := some { createdAt := now, email := email } }

/-- clearSessionMeta. -/
def clearSessionMeta (ls : LocalStorage) : LocalStorage :=
  { ls with sessionMeta := none }

/-- Seven days in milliseconds (SEVEN_DAYS_MS). -/
def SEVEN_DAYS_MS : Int := 7 * 24 * 60 * 60 * 1000

/-- isSessionExpired: true when no sessionMeta is stored, or when the stored
createdAt is more than seven days in the past. -/
def isSessionExpired (now : Int) (ls : LocalStorage) : Bool :=
  match ls.sessionMeta with
  | none => true
  | some meta => decide (now - meta.createdAt > SEVEN_DAYS_MS)

-- ============================================================================
-- src/storage/session-storage.ts (field updates on the volatile partition)
-- ============================================================================

/-- setAuthState. -/
def setAuthState (a : SessionAuth) (ss : SessionStorage) : SessionStorage :=
  { ss with auth := some a }

/-- clearAuthState. -/
def clearAuthState (ss : SessionStorage) : SessionStorage :=
  { ss with auth := none }

/-- setOTPRequest. -/
def setOTPRequest (r : OTPRequest) (ss : SessionStorage) : SessionStorage :=
  { ss with otpRequest := some r }

/-- clearOTPRequest. -/
def clearOTPRequest (ss : SessionStorage) : SessionStorage :=
  { ss with otpRequest := none }

/-- clearUserProfile. -/
def clearUserProfile (ss : SessionStorage) : SessionStorage :=
  { ss with userProfile := none }

/-- setFlowState. -/
def setFlowState (f : AuthFlowState) (ss : SessionStorage) : SessionStorage :=
  { ss with flowState := some f }

-- ============================================================================
-- src/storage/index.ts
-- ============================================================================

/-- getCompleteAuthState: combines the session-storage half with the
decrypted refresh token; null unless both halves are present. The second
component is the store after the call (getRefreshToken may have cleared a
corrupted entry). -/
def getCompleteAuthState (key : String) (st : Store) : Option AuthState × Store :=
  let rt := getRefreshToken key st.durable
  let st1 : Store := { st with durable := rt.2 }
  match st.session.auth, rt.1 with
  | some sa, some token =>
    (some { email := sa.email
            accessToken := sa.accessToken
            refreshToken := token
            expiresAt := sa.expiresAt
            idToken := sa.idToken
            sessionCreatedAt := sa.sessionCreatedAt }, st1)
  | _, _ => (none, st1)

/-- storeAuthState: writes the session-storage half, the encrypted refresh
token, and sessionMeta (which re-stamps createdAt with Date.now()). -/
def storeAuthState (now : Int) (key iv : String) (auth : AuthState) (st : Store) : Store :=
  { session := setAuthState auth.toSessionAuth st.session
    durable := setSessionMeta now auth.email (setRefreshToken key iv auth.refreshToken st.durable) }

/-- clearAllAuthState: clears both partitions and sets flowState LOGGED_OUT. -/
def clearAllAuthState (st : Store) : Store :=
  { session := setFlowState AuthFlowState.LOGGED_OUT
      (clearOTPRequest (clearUserProfile (clearAuthState st.session)))
    durable := clearSessionMeta (clearRefreshToken st.durable) }

/-- isSessionValid: both halves present and not past the 7-day lifetime.
The second component is the store after the call. -/
def isSessionValid (now : Int) (key : String) (st : Store) : Bool × Store :=
  let rt := getRefreshToken key st.durable
  (st.session.auth.isSome && rt.1.isSome && !(isSessionExpired now st.durable),
   { st with durable := rt.2 })

/-- Five minutes in milliseconds (FIVE_MINUTES_MS in isAccessTokenExpired). -/
def FIVE_MINUTES_MS : Int := 5 * 60 * 1000

/-- isAccessTokenExpired: true without an auth record, or within five
minutes of the stored expiry. -/
def isAccessTokenExpired (now : Int) (st : Store) : Bool :=
  match st.session.auth with
  | none => true
  | some auth => decide (now > auth.expiresAt - FIVE_MINUTES_MS)

-- ============================================================================
-- src/auth/state-machine.ts
-- ============================================================================

/-- The derived read-only view (StateMachineState). -/
structure StateMachineState where
  flowState : AuthFlowState
  email : Option String
  isAuthenticated : Bool
  otpRequest : Option OTPRequest
  userProfile : Option UserProfile
  sessionAge : Option Int
  expiresAt : Option Int
deriving DecidableEq, Repr

/-- getCurrentState: derives the view from both partitions. sessionAge is
Math.floor of the elapsed milliseconds over 1000. The second component is
the store after the call (getRefreshToken may clear a corrupted entry). -/
def getCurrentState (now : Int) (key : String) (st : Store) :
    StateMachineState × Store :=
  let authRes := getCompleteAuthState key st
  let auth := authRes.1
  let currentFlowState := st.session.flowState.getD AuthFlowState.LOGGED_OUT
  ({ flowState := currentFlowState
     email := (auth.map (·.email)).orElse (fun _ => st.session.otpRequest.map (·.email))
     isAuthenticated := decide (currentFlowState = AuthFlowState.AUTHENTICATED) && auth.isSome
     otpRequest := st.session.otpRequest
     userProfile := st.session.userProfile
     sessionAge := st.durable.sessionMeta.map (fun m => Int.fdiv (now - m.createdAt) 1000)
     expiresAt := auth.map (·.expiresAt) }, authRes.2)

/-- Five minutes in milliseconds: the OTP code validity window
(OTP_EXPIRY_MS in initializeStateMachine). -/
def OTP_EXPIRY_MS : Int := 5 * 60 * 1000

/-- initializeStateMachine: startup reconciliation. Derives FlowState from
the stored facts: a complete unexpired session gives AUTHENTICATED; an
expired session, or a refresh token without the session half, wipes all
auth storage and gives LOGGED_OUT; a pending OTP younger than five minutes
gives PENDING_OTP; otherwise LOGGED_OUT. -/
def initializeStateMachine (now : Int) (key : String) (st : Store) :
    StateMachineState × Store :=
  let authRes := getCompleteAuthState key st
  let auth := authRes.1
  let rt := (getRefreshToken key st.durable).1
  let expired := isSessionExpired now st.durable
  let st1 := authRes.2
  if auth.isSome && rt.isSome && !expired then
    getCurrentState now key { st1 with session := setFlowState AuthFlowState.AUTHENTICATED st1.session }
  else if expired || (auth.isNone && rt.isSome) then
    getCurrentState now key (clearAllAuthState st1)
  else
    match st1.session.otpRequest with
    | some r =>
      if now - r.requestedAt < OTP_EXPIRY_MS then
        getCurrentState now key { st1 with session := setFlowState AuthFlowState.PENDING_OTP st1.session }
      else
        let st2 := { st1 with session := clearOTPRequest st1.session }
        getCurrentState now key { st2 with session := setFlowState AuthFlowState.LOGGED_OUT st2.session }
    | none =>
      getCurrentState now key { st1 with session := setFlowState AuthFlowState.LOGGED_OUT st1.session }

/-- transitionToOTPPending: creates or increments the pending OTP request.
attemptCount continues from an existing request only when its email matches;
windowStart is kept for a matching email and set to now otherwise. -/
def transitionToOTPPending (email : String) (now : Int) (st : Store) : Store :=
  let existing := st.session.otpRequest
  let newReq : OTPRequest :=
    { email := email
      requestedAt := now
      attemptCount :=
        (match existing with
         | some r => if r.email = email then r.attemptCount else 0
         | none => 0) + 1
      windowStart :=
        match existing with
        | some r => if r.email = email then r.windowStart else now
        | none => now }
  { st with session := setFlowState AuthFlowState.PENDING_OTP (setOTPRequest newReq st.session) }

/-- transitionToAuthenticated: storeAuthState, clearOTPRequest and
setFlowState AUTHENTICATED (three writes to disjoint keys). -/
def transitionToAuthenticated (now : Int) (key iv : String) (auth : AuthState) (st : Store) : Store :=
  let st1 := storeAuthState now key iv auth st
  { st1 with session := setFlowState AuthFlowState.AUTHENTICATED (clearOTPRequest st1.session) }

/-- transitionToLoggedOut: clearAllAuthState (the reason string only logs). -/
def transitionToLoggedOut (st : Store) : Store :=
  clearAllAuthState st

/-- Rate-limit window: 15 minutes (RATE_LIMIT_WINDOW_MS). -/
def RATE_LIMIT_WINDOW_MS : Int := 15 * 60 * 1000

/-- Maximum OTP requests per window (MAX_OTP_REQUESTS). -/
def MAX_OTP_REQUESTS : Int := 5

/-- Result of isRateLimited. -/
structure RateLimitInfo where
  limited : Bool
  remainingAttempts : Int
  resetAt : Option Int
deriving DecidableEq, Repr

/-- isRateLimited: not limited without a pending request for this email or
once the window start is more than 15 minutes in the past; otherwise
limited exactly when attemptCount has reached the maximum. -/
def isRateLimited (email : String) (now : Int) (st : Store) : RateLimitInfo :=
  match st.session.otpRequest with
  | none => { limited := false, remainingAttempts := MAX_OTP_REQUESTS, resetAt := none }
  | some r =>
    if r.email = email then
      if now - r.windowStart > RATE_LIMIT_WINDOW_MS then
        { limited := false, remainingAttempts := MAX_OTP_REQUESTS, resetAt := none }
      else
        let remaining := MAX_OTP_REQUESTS - r.attemptCount
        { limited := decide (remaining ≤ 0)
          remainingAttempts := max 0 remaining
          resetAt := some (r.windowStart + RATE_LIMIT_WINDOW_MS) }
    else
      { limited := false, remainingAttempts := MAX_OTP_REQUESTS, resetAt := none }

-- ============================================================================
-- src/auth/validation.ts (validateEmail)
-- ============================================================================

/-- A character of the regex class excluding whitespace and the at sign
(the class used three times in the email regex). -/
def isEmailAtomChar (c : Char) : Bool :=
  !c.isWhitespace && !(c = '@')

/-- Split a character list at every occurrence of a separator character,
with the semantics of the JavaScript String.split for a one-character
separator (an empty input gives one empty part). -/
def splitOnChar (sep : Char) : List Char → List (List Char)
  | [] => [[]]
  | c :: cs =>
    let r := splitOnChar sep cs
    if c = sep then [] :: r
    else
      match r with
      | [] => [[c]]
      | h :: t => (c :: h) :: t

/-- The anchored email regex of validateEmail: one or more non-space
non-at characters, an at sign, then a domain of the same class containing
a dot with at least one character on each side. A list of characters
matches exactly when it splits at the at sign into two parts, the local
part nonempty, all characters in the class, and the domain has an inner
dot. -/
def emailRegexTest (cs : List Char) : Bool :=
  match splitOnChar '@' cs with
  | [l, rest] =>
    !l.isEmpty && l.all isEmailAtomChar &&
    rest.all isEmailAtomChar && ((rest.drop 1).dropLast.contains '.')
  | _ => false

/-- Trim leading and trailing whitespace (String.prototype.trim). -/
def jsTrim (cs : List Char) : List Char :=
  ((cs.dropWhile Char.isWhitespace).reverse.dropWhile Char.isWhitespace).reverse

/-- validateEmail: trim, bound the length by 254, then test the regex. -/
def validateEmail (email : String) : Bool :=
  let trimmed := jsTrim email.toList
  if trimmed.length = 0 || 254 < trimmed.length then false
  else emailRegexTest trimmed

-- ============================================================================
-- src/utils/errors.ts (mapAuth0ErrorToCode)
-- ============================================================================

/-- Bool-valued prefix test on character lists. -/
def isPrefixL : List Char → List Char → Bool
  | [], _ => true
  | _ :: _, [] => false
  | a :: as, b :: bs => a = b && isPrefixL as bs

/-- Substring containment (String.prototype.includes). -/
def includesL : List Char → List Char → Bool
  | [], needle => needle.isEmpty
  | c :: rest, needle => isPrefixL needle (c :: rest) || includesL rest needle

/-- String.prototype.includes on Lean strings. -/
def strIncludes (s sub : String) : Bool :=
  includesL s.toList sub.toList

/-- String.prototype.toLowerCase (ASCII, which covers the patterns used). -/
def strToLower (s : String) : String :=
  String.mk (s.toList.map Char.toLower)

/-- Auth0 error body: the error field plus the detail taken from
error_description with message as fallback (Auth0ErrorResponse). -/
structure Auth0ErrorBody where
  error : String
  detail : Option String
deriving DecidableEq, Repr

/-- mapAuth0ErrorToCode: the email-domain patterns are checked on the
lowercased fields first; then the error field is matched exactly. Unknown
errors map to VALIDATION_ERROR. -/
def mapAuth0ErrorToCode (auth0Error : String) (errorDetail : String) : AuthErrorCode :=
  let errorLower := strToLower auth0Error
  let detailLower := strToLower errorDetail
  if strIncludes errorLower "unauthorized_email_domain" ||
     strIncludes errorLower "email_domain" ||
     strIncludes detailLower "unauthorized_email_domain" ||
     strIncludes detailLower "email domain" ||
     strIncludes detailLower "domain is not allowed" ||
     strIncludes detailLower "email address is not allowed" then
    AuthErrorCode.EMAIL_DOMAIN_NOT_ALLOWED
  else if auth0Error = "invalid_request" then AuthErrorCode.INVALID_EMAIL
  else if auth0Error = "invalid_grant" then AuthErrorCode.INVALID_OTP
  else if auth0Error = "access_denied" then
    if strIncludes detailLower "domain" then AuthErrorCode.EMAIL_DOMAIN_NOT_ALLOWED
    else AuthErrorCode.INVALID_OTP
  else if auth0Error = "unauthorized_client" then AuthErrorCode.VALIDATION_ERROR
  else if auth0Error = "too_many_requests" then AuthErrorCode.RATE_LIMITED
  else if auth0Error = "server_error" then AuthErrorCode.AUTH0_UNAVAILABLE
  else AuthErrorCode.VALIDATION_ERROR

/-- AuthError.fromAuth0Error: the detail defaults to the empty string. -/
def fromAuth0Error (body : Auth0ErrorBody) : AuthErrorCode :=
  mapAuth0ErrorToCode body.error (body.detail.getD "")

-- ============================================================================
-- src/auth/api-client.ts (fetchWithRetry)
-- ============================================================================

/-- What one fetch attempt observes: a transport failure (fetch throws
TypeError), a response with response.ok true whose JSON body parsed as T,
or a response with response.ok false carrying a status and an error body. -/
inductive FetchOutcome (T : Type) where
  | transport
  | success (value : T)
  | httpError (status : Nat) (body : Auth0ErrorBody)
deriving DecidableEq, Repr

/-- What the attempt throws: the TypeError from fetch, or an AuthError. -/
inductive FetchError where
  | transportErr
  | authErr (code : AuthErrorCode)
deriving DecidableEq, Repr

/-- The body of one loop iteration of fetchWithRetry: ok responses return
the JSON value; a 4xx throws AuthError.fromAuth0Error of the body; a 5xx
throws AUTH0_UNAVAILABLE; any other non-ok status throws NETWORK_ERROR. -/
def attemptOnce {T : Type} (o : FetchOutcome T) : Except FetchError T :=
  match o with
  | .transport => .error .transportErr
  | .success v => .ok v
  | .httpError status body =>
    if 400 ≤ status ∧ status < 500 then .error (.authErr (fromAuth0Error body))
    else if 500 ≤ status then .error (.authErr AuthErrorCode.AUTH0_UNAVAILABLE)
    else .error (.authErr AuthErrorCode.NETWORK_ERROR)

/-- isRetryableError: TypeError from fetch, or an AuthError whose code is
NETWORK_ERROR or AUTH0_UNAVAILABLE. -/
def isRetryableError : FetchError → Bool
  | .transportErr => true
  | .authErr c =>
    decide (c = AuthErrorCode.NETWORK_ERROR) || decide (c = AuthErrorCode.AUTH0_UNAVAILABLE)

/-- MAX_RETRIES. -/
def MAX_RETRIES : Nat := 3

/-- getRetryDelay: exponential backoff from 1000ms doubled per attempt,
plus the jitter drawn from Math.random times 500, capped at 5000ms. The
jitter sample is passed explicitly (a natural below 500). -/
def getRetryDelay (attempt : Nat) (jitter : Nat) : Nat :=
  min (1000 * 2 ^ attempt + jitter) 5000

/-- Result of the retry loop: the value or the final thrown error, the
number of attempts made, and the sleep delays between attempts. -/
structure FetchResult (T : Type) where
  result : Except FetchError T
  attempts : Nat
  delays : List Nat
deriving Repr

/-- The retry loop of fetchWithRetry: attempt is the loop index, remaining
the attempts still allowed. A non-retryable error is rethrown at once; a
retryable error on the last attempt is thrown after the loop. -/
def fetchLoop {T : Type} (outcomes : Nat → FetchOutcome T) (jitter : Nat → Nat) :
    (attempt : Nat) → (remaining : Nat) → FetchResult T
  | attempt, 0 => { result := .error .transportErr, attempts := attempt, delays := [] }
  | attempt, r + 1 =>
    match attemptOnce (outcomes attempt) with
    | .ok v => { result := .ok v, attempts := attempt + 1, delays := [] }
    | .error e =>
      if !isRetryableError e || r = 0 then
        { result := .error e, attempts := attempt + 1, delays := [] }
      else
        let d := getRetryDelay attempt (jitter attempt)
        let res := fetchLoop outcomes jitter (attempt + 1) r
        { res with delays := d :: res.delays }

/-- fetchWithRetry: up to MAX_RETRIES attempts, with the per-attempt
outcomes and jitter samples supplied as oracles. -/
def fetchWithRetry {T : Type} (outcomes : Nat → FetchOutcome T) (jitter : Nat → Nat) :
    FetchResult T :=
  fetchLoop outcomes jitter 0 MAX_RETRIES

-- ============================================================================
-- src/auth/message-handlers.ts
-- ============================================================================

/-- Response envelope (AuthResponse in src/messages/types.ts); the fixed
user-facing message strings are not modelled. -/
inductive AuthResponse (T : Type) where
  | success (data : T)
  | failure (code : AuthErrorCode)
deriving DecidableEq, Repr

/-- Payload of a successful InitiateOTP response. -/
structure InitiateOTPData where
  email : String
  expiresAt : Int
deriving DecidableEq, Repr

/-- Payload of a successful ResendOTP response. -/
structure ResendOTPData where
  email : String
  expiresAt : Int
  remainingAttempts : Int
deriving DecidableEq, Repr

/-- Payload of a successful RefreshToken response. -/
structure RefreshData where
  expiresAt : Int
deriving DecidableEq, Repr

/-- AuthError.fromUnknown applied to the error thrown out of
fetchWithRetry: an AuthError keeps its code, anything else (the TypeError
kept as lastError) takes the default code. -/
def codeOfFetchError (defaultCode : AuthErrorCode) : FetchError → AuthErrorCode
  | .transportErr => defaultCode
  | .authErr c => c

/-- handleInitiateOTP. providerErr is the outcome of the
initiatePasswordlessOTP call: none when the provider accepted the request,
some code when the call threw (after AuthError.fromUnknown with default
NETWORK_ERROR). The third component records whether the provider was
invoked. -/
def handleInitiateOTP (email : String) (now : Int) (providerErr : Option AuthErrorCode)
    (st : Store) : AuthResponse InitiateOTPData × Store × Bool :=
  if !validateEmail email then
    (.failure AuthErrorCode.INVALID_EMAIL, st, false)
  else
    let rateLimit := isRateLimited email now st
    if rateLimit.limited then
      (.failure AuthErrorCode.RATE_LIMITED, st, false)
    else
      match providerErr with
      | some code => (.failure code, st, true)
      | none =>
        let st1 := transitionToOTPPending email now st
        (.success { email := email, expiresAt := now + 5 * 60 * 1000 }, st1, true)

/-- handleResendOTP: identical gating to handleInitiateOTP, with the
remaining attempts re-read after the transition. -/
def handleResendOTP (email : String) (now : Int) (providerErr : Option AuthErrorCode)
    (st : Store) : AuthResponse ResendOTPData × Store × Bool :=
  if !validateEmail email then
    (.failure AuthErrorCode.INVALID_EMAIL, st, false)
  else
    let rateLimit := isRateLimited email now st
    if rateLimit.limited then
      (.failure AuthErrorCode.RATE_LIMITED, st, false)
    else
      match providerErr with
      | some code => (.failure code, st, true)
      | none =>
        let st1 := transitionToOTPPending email now st
        let updatedRateLimit := isRateLimited email now st1
        (.success { email := email
                    expiresAt := now + 5 * 60 * 1000
                    remainingAttempts := updatedRateLimit.remainingAttempts }, st1, true)

/-- handleRefreshToken. The refreshTokens network call is the fetchWithRetry
model instantiated at TokenResponse, with its per-attempt outcomes and
jitter supplied as oracles. On a thrown error the code passes through
AuthError.fromUnknown with default REFRESH_FAILED, and only the codes
REFRESH_FAILED and VALIDATION_ERROR force a logout. -/
def handleRefreshToken (now : Int) (key iv : String)
    (outcomes : Nat → FetchOutcome TokenResponse) (jitter : Nat → Nat)
    (st : Store) : AuthResponse RefreshData × Store :=
  if isSessionExpired now st.durable then
    (.failure AuthErrorCode.SESSION_EXPIRED, transitionToLoggedOut st)
  else
    let rt := getRefreshToken key st.durable
    let st1 : Store := { st with durable := rt.2 }
    match rt.1 with
    | none => (.failure AuthErrorCode.NOT_AUTHENTICATED, st1)
    | some currentRefreshToken =>
      match st1.session.auth with
      | none => (.failure AuthErrorCode.NOT_AUTHENTICATED, st1)
      | some currentAuth =>
        match (fetchWithRetry outcomes jitter).result with
        | .error e =>
          let code := codeOfFetchError AuthErrorCode.REFRESH_FAILED e
          if code = AuthErrorCode.REFRESH_FAILED ∨ code = AuthErrorCode.VALIDATION_ERROR then
            (.failure code, transitionToLoggedOut st1)
          else
            (.failure code, st1)
        | .ok tokenResponse =>
          let expiresAt := now + tokenResponse.expires_in * 1000
          let authState : AuthState :=
            { email := currentAuth.email
              accessToken := tokenResponse.access_token
              refreshToken := tokenResponse.refresh_token.getD currentRefreshToken
              expiresAt := expiresAt
              idToken := (tokenResponse.id_token).orElse (fun _ => currentAuth.idToken)
              sessionCreatedAt := currentAuth.sessionCreatedAt }
          (.success { expiresAt := expiresAt },
           transitionToAuthenticated now key iv authState st1)

/-- Payload of a GetAuthState response (AuthStateResponseData). -/
structure AuthStateResponseData where
  isAuthenticated : Bool
  email : Option String
  expiresAt : Option Int
  sessionAge : Option Int
  flowState : AuthFlowState
  otpRequest : Option OTPRequest
deriving DecidableEq, Repr

/-- handleGetAuthState: projects getCurrentState into the response. -/
def handleGetAuthState (now : Int) (key : String) (st : Store) :
    AuthResponse AuthStateResponseData × Store :=
  let res := getCurrentState now key st
  (.success { isAuthenticated := res.1.isAuthenticated
              email := res.1.email
              expiresAt := res.1.expiresAt
              sessionAge := res.1.sessionAge
              flowState := res.1.flowState
              otpRequest := res.1.otpRequest }, res.2)

-- ============================================================================
-- src/auth/token-validator.ts
-- ============================================================================

/-- The aud claim: a single string or an array of strings. -/
inductive AudClaim where
  | single (s : String)
  | multiple (l : List String)
deriving DecidableEq, Repr

/-- The audArray normalization in validateIDToken. -/
def audArray : AudClaim → List String
  | .single s => [s]
  | .multiple l => l

/-- The Array.isArray test combined with the length bound used for the
authorized-party check. -/
def audIsMultiple : AudClaim → Bool
  | .single _ => false
  | .multiple l => decide (1 < l.length)

/-- ID-token claims (IDTokenClaims); exp and iat are Unix seconds. -/
structure IDTokenClaims where
  iss : String
  sub : String
  aud : AudClaim
  exp : Int
  iat : Int
  azp : Option String
  nonce : Option String
  email : Option String
deriving DecidableEq, Repr

/-- parseJWT: the token must split at the dots into exactly three nonempty
segments, whose header and payload must decode. The base64url decoding and
JSON parsing of a segment are platform operations, supplied as oracles:
headerDecodes says whether the header segment parses, payloadDecode gives
the claims of the payload segment when it parses. All parse failures throw
VALIDATION_ERROR, modelled as none. -/
def parseJWT (headerDecodes : String → Bool) (payloadDecode : String → Option IDTokenClaims)
    (token : String) : Option IDTokenClaims :=
  match splitOnChar '.' token.toList with
  | [h, p, s] =>
    if h.isEmpty || p.isEmpty || s.isEmpty then none
    else if headerDecodes (String.mk h) then payloadDecode (String.mk p) else none
  | _ => none

/-- validateIDToken over parsed claims: issuer equality, audience
membership, the authorized-party check for a multi-entry audience array,
expiry and issued-at with clock tolerance (now in Unix seconds), and the
nonce comparison when a nonce was supplied. Failures throw
VALIDATION_ERROR, modelled as none; on success the claims are returned
(the ValidatedToken wrapper adds only the email and sub projections). -/
def validateIDToken (headerDecodes : String → Bool)
    (payloadDecode : String → Option IDTokenClaims)
    (now : Int) (audience issuer : String) (clockTolerance : Int)
    (nonce : Option String) (token : String) : Option IDTokenClaims :=
  match parseJWT headerDecodes payloadDecode token with
  | none => none
  | some claims =>
    if claims.iss ≠ issuer then none
    else if audience ∉ audArray claims.aud then none
    else if audIsMultiple claims.aud ∧ claims.azp ≠ some audience then none
    else if claims.exp + clockTolerance < now then none
    else if now < claims.iat - clockTolerance then none
    else
      match nonce with
      | some n => if claims.nonce ≠ some n then none else some claims
      | none => some claims

-- ============================================================================
-- Theorems
-- ============================================================================

/-- C10: the view derived by getCurrentState (and hence the GetAuthState
response) reports isAuthenticated exactly when the persisted flowState is
AUTHENTICATED and both halves of the session are present: the volatile
auth record and a decryptable refresh token. A stale AUTHENTICATED flag
with either half missing never yields an authenticated view. -/
theorem getCurrentState_isAuthenticated_iff (now : Int) (key : String) (st : Store) :
    (getCurrentState now key st).1.isAuthenticated = true ↔
      (st.session.flowState = some AuthFlowState.AUTHENTICATED ∧
       st.session.auth.isSome = true ∧
       (getRefreshToken key st.durable).1.isSome = true) := by
  cases hA : st.session.auth <;>
    cases hR : (getRefreshToken key st.durable).1 <;>
      cases hF : st.session.flowState <;>
        simp [getCurrentState, getCompleteAuthState, hA, hR, hF, Option.getD]

/-- Witness for C10 at a concrete store: flowState AUTHENTICATED with both
halves present is reported authenticated. -/
theorem getCurrentState_isAuthenticated_iff_witness :
    (getCurrentState 1000 "k"
      { session :=
          { auth := some { email := "user@example.com", accessToken := "at"
                           expiresAt := 2000, idToken := none, sessionCreatedAt := 0 }
            otpRequest := none, userProfile := none
            flowState := some AuthFlowState.AUTHENTICATED }
        durable :=
          { encryptedRefreshToken := some (encrypt "k" "iv0" "rt")
            refreshTokenIV := some "iv0"
            sessionMeta := some { createdAt := 0, email := "user@example.com" } } }).1.isAuthenticated
      = true :=
  (getCurrentState_isAuthenticated_iff 1000 "k" _).mpr ⟨rfl, rfl, by decide⟩

/-- C5: writing a refresh token and reading it back through the
durable-partition cipher yields the original string; corrupting the stored
nonce (any different nonce), or corrupting the stored ciphertext to
anything that is not a same-key same-nonce encryption, makes the read
return none and proactively erase both the ciphertext and the nonce
entries instead of throwing. -/
theorem refreshToken_roundtrip_and_corruption (key iv token : String) (ls : LocalStorage) :
    (getRefreshToken key (setRefreshToken key iv token ls)).1 = some token ∧
    (∀ iv2 : String, iv2 ≠ iv →
      getRefreshToken key { setRefreshToken key iv token ls with refreshTokenIV := some iv2 } =
        (none, clearRefreshToken { setRefreshToken key iv token ls with refreshTokenIV := some iv2 })) ∧
    (∀ ct2 : Ciphertext, (∀ pt, ct2 ≠ encrypt key iv pt) →
      getRefreshToken key { setRefreshToken key iv token ls with encryptedRefreshToken := some ct2 } =
        (none, clearRefreshToken { setRefreshToken key iv token ls with encryptedRefreshToken := some ct2 })) := by
  refine ⟨?_, ?_, ?_⟩
  · simp [getRefreshToken, setRefreshToken, encrypt, decrypt]
  · intro iv2 hne
    simp only [getRefreshToken, setRefreshToken, clearRefreshToken, encrypt, decrypt]
    simp [Ne.symm hne]
  · intro ct2 hct
    have hcond : ¬(ct2.key = key ∧ ct2.iv = iv) := by
      rintro ⟨hk, hiv⟩
      exact hct ct2.plaintext (by cases ct2; simp_all [encrypt])
    simp only [getRefreshToken, setRefreshToken, clearRefreshToken, decrypt]
    simp [hcond]

/-- Witness for C5 at concrete values: round trip of the token string t,
a flipped nonce, and a ciphertext under a different key. -/
theorem refreshToken_roundtrip_and_corruption_witness :
    (getRefreshToken "k" (setRefreshToken "k" "i" "t"
        { encryptedRefreshToken := none, refreshTokenIV := none, sessionMeta := none })).1
      = some "t" ∧
    getRefreshToken "k" { setRefreshToken "k" "i" "t"
        { encryptedRefreshToken := none, refreshTokenIV := none, sessionMeta := none }
        with refreshTokenIV := some "j" } =
      (none, clearRefreshToken { setRefreshToken "k" "i" "t"
        { encryptedRefreshToken := none, refreshTokenIV := none, sessionMeta := none }
        with refreshTokenIV := some "j" }) ∧
    getRefreshToken "k" { setRefreshToken "k" "i" "t"
        { encryptedRefreshToken := none, refreshTokenIV := none, sessionMeta := none }
        with encryptedRefreshToken := some { key := "x", iv := "i", plaintext := "t" } } =
      (none, clearRefreshToken { setRefreshToken "k" "i" "t"
        { encryptedRefreshToken := none, refreshTokenIV := none, sessionMeta := none }
        with encryptedRefreshToken := some { key := "x", iv := "i", plaintext := "t" } }) := by
  obtain ⟨h1, h2, h3⟩ := refreshToken_roundtrip_and_corruption "k" "i" "t"
    { encryptedRefreshToken := none, refreshTokenIV := none, sessionMeta := none }
  exact ⟨h1, h2 "j" (by decide),
    h3 { key := "x", iv := "i", plaintext := "t" }
      (by intro pt h; simp [encrypt, Ciphertext.mk.injEq] at h)⟩

/-- C6: validateIDToken returns the parsed claims exactly when the token
splits into three decodable segments and every claim check passes: issuer
equality, audience membership, the authorized-party check when the
audience array has more than one entry, expiry no further than
clockTolerance in the past, issued-at no further than clockTolerance in
the future, and nonce equality when a nonce was supplied; in every other
case it fails with VALIDATION_ERROR (none). -/
theorem validateIDToken_ok_iff (headerDecodes : String → Bool)
    (payloadDecode : String → Option IDTokenClaims)
    (now : Int) (audience issuer : String) (clockTolerance : Int)
    (nonce : Option String) (token : String) (c : IDTokenClaims) :
    validateIDToken headerDecodes payloadDecode now audience issuer clockTolerance nonce token
      = some c ↔
    (parseJWT headerDecodes payloadDecode token = some c ∧
     c.iss = issuer ∧
     audience ∈ audArray c.aud ∧
     (audIsMultiple c.aud = true → c.azp = some audience) ∧
     ¬(c.exp + clockTolerance < now) ∧
     ¬(now < c.iat - clockTolerance) ∧
     (∀ n, nonce = some n → c.nonce = some n)) := by
  unfold validateIDToken
  cases hp : parseJWT headerDecodes payloadDecode token with
  | none => simp
  | some claims =>
    constructor
    · intro h
      have hconds :
          claims.iss = issuer ∧ audience ∈ audArray claims.aud ∧
          (audIsMultiple claims.aud = true → claims.azp = some audience) ∧
          ¬(claims.exp + clockTolerance < now) ∧ ¬(now < claims.iat - clockTolerance) ∧
          (∀ n, nonce = some n → claims.nonce = some n) ∧ claims = c := by
        by_cases h1 : claims.iss ≠ issuer
        · simp [h1] at h
        by_cases h2 : audience ∉ audArray claims.aud
        · simp [h1, h2] at h
        by_cases h3 : audIsMultiple claims.aud ∧ claims.azp ≠ some audience
        · simp [h1, h2, h3] at h
        by_cases h4 : claims.exp + clockTolerance < now
        · simp [h1, h2, h3, h4] at h
        by_cases h5 : now < claims.iat - clockTolerance
        · simp [h1, h2, h3, h4, h5] at h
        simp only [if_neg h1, if_neg h2, if_neg h3, if_neg h4, if_neg h5] at h
        push_neg at h1 h2
        refine ⟨h1, h2, ?_, h4, h5, ?_, ?_⟩
        · intro hm
          by_contra hazp
          exact h3 ⟨hm, hazp⟩
        · intro n hn
          subst hn
          by_cases h6 : claims.nonce ≠ some n
          · simp [h6] at h
          · push_neg at h6; exact h6
        · cases hn : nonce with
          | none => simpa [hn] using h
          | some n =>
            subst hn
            by_cases h6 : claims.nonce ≠ some n
            · simp [h6] at h
            · simpa [h6] using h
      obtain ⟨h1, h2, h3, h4, h5, h6, rfl⟩ := hconds
      exact ⟨rfl, h1, h2, h3, h4, h5, h6⟩
    · rintro ⟨hc, h1, h2, h3, h4, h5, h6⟩
      have hceq : claims = c := Option.some.inj hc
      subst hceq
      have h3b : ¬(audIsMultiple claims.aud = true ∧ claims.azp ≠ some audience) := by
        rintro ⟨hm, hazp⟩
        exact hazp (h3 hm)
      dsimp only
      rw [if_neg (by simp [h1]), if_neg (by simp [h2]), if_neg h3b, if_neg h4, if_neg h5]
      cases hn : nonce with
      | none => rfl
      | some n => simp [h6 n hn]

/-- Witness for C6: a well-formed concrete token with matching claims
validates to its claims. -/
theorem validateIDToken_ok_iff_witness :
    validateIDToken (fun _ => true)
      (fun p => if p = "P" then
          some { iss := "https://tenant.example.com/", sub := "auth0|1"
                 aud := AudClaim.single "client1", exp := 2000, iat := 1000
                 azp := none, nonce := none, email := some "user@example.com" }
        else none)
      1500 "client1" "https://tenant.example.com/" 60 none "H.P.S"
      = some { iss := "https://tenant.example.com/", sub := "auth0|1"
               aud := AudClaim.single "client1", exp := 2000, iat := 1000
               azp := none, nonce := none, email := some "user@example.com" } := by
  apply (validateIDToken_ok_iff (fun _ => true) _ 1500 "client1"
    "https://tenant.example.com/" 60 none "H.P.S" _).mpr
  refine ⟨by decide, rfl, by decide, by decide, by decide, by decide, ?_⟩
  intro n hn
  cases hn

-- Helper lemmas about the storage facade, shared by the reconciliation
-- theorems below.

lemma getRefreshToken_some_snd {key : String} {ls : LocalStorage} {t : String}
    (h : (getRefreshToken key ls).1 = some t) : (getRefreshToken key ls).2 = ls := by
  unfold getRefreshToken at *
  cases hct : ls.encryptedRefreshToken with
  | none => rfl
  | some ct =>
    cases hiv : ls.refreshTokenIV with
    | none => rfl
    | some iv =>
      simp only [hct, hiv] at h ⊢
      cases hd : decrypt key iv ct with
      | none => simp [hd] at h
      | some tok => simp [hd]

lemma getRefreshToken_snd_meta (key : String) (ls : LocalStorage) :
    ((getRefreshToken key ls).2).sessionMeta = ls.sessionMeta := by
  unfold getRefreshToken
  cases hct : ls.encryptedRefreshToken with
  | none => rfl
  | some ct =>
    cases hiv : ls.refreshTokenIV with
    | none => rfl
    | some iv =>
      cases hd : decrypt key iv ct <;> simp [hd, clearRefreshToken]

lemma getRefreshToken_idem (key : String) (ls : LocalStorage) :
    getRefreshToken key ((getRefreshToken key ls).2) = getRefreshToken key ls := by
  unfold getRefreshToken
  cases hct : ls.encryptedRefreshToken with
  | none => simp [hct]
  | some ct =>
    cases hiv : ls.refreshTokenIV with
    | none => simp [hct, hiv]
    | some iv =>
      cases hd : decrypt key iv ct <;> simp [hct, hiv, hd, clearRefreshToken]

lemma isSessionExpired_clean (now : Int) (key : String) (ls : LocalStorage) :
    isSessionExpired now ((getRefreshToken key ls).2) = isSessionExpired now ls := by
  unfold isSessionExpired
  rw [getRefreshToken_snd_meta]

lemma getCompleteAuthState_snd (key : String) (st : Store) :
    (getCompleteAuthState key st).2 =
      { st with durable := (getRefreshToken key st.durable).2 } := by
  unfold getCompleteAuthState
  cases hA : st.session.auth <;> cases hR : (getRefreshToken key st.durable).1 <;>
    simp [hA, hR]

lemma getCompleteAuthState_fst_isSome (key : String) (st : Store) :
    ((getCompleteAuthState key st).1).isSome =
      (st.session.auth.isSome && ((getRefreshToken key st.durable).1).isSome) := by
  unfold getCompleteAuthState
  cases hA : st.session.auth <;> cases hR : (getRefreshToken key st.durable).1 <;>
    simp [hA, hR]

lemma getCompleteAuthState_fst_isNone (key : String) (st : Store) :
    ((getCompleteAuthState key st).1).isNone =
      (!st.session.auth.isSome || !((getRefreshToken key st.durable).1).isSome) := by
  unfold getCompleteAuthState
  cases hA : st.session.auth <;> cases hR : (getRefreshToken key st.durable).1 <;>
    simp [hA, hR]

lemma getCurrentState_fst_flowState (now : Int) (key : String) (st : Store) :
    ((getCurrentState now key st).1).flowState =
      st.session.flowState.getD AuthFlowState.LOGGED_OUT := by
  unfold getCurrentState
  rfl

lemma getCurrentState_snd (now : Int) (key : String) (st : Store) :
    (getCurrentState now key st).2 =
      { st with durable := (getRefreshToken key st.durable).2 } := by
  unfold getCurrentState
  exact getCompleteAuthState_snd key st

/-- The FlowState the startup reconciliation derives, stated from the
stored facts (the amended form of the spec's derivation rule): a complete
unexpired session gives AUTHENTICATED; an expired session, or a decryptable
refresh token present without the volatile auth record, gives LOGGED_OUT
with a wipe; a pending OTP younger than five minutes gives PENDING_OTP;
otherwise LOGGED_OUT. -/
def derivedFlowState (now : Int) (key : String) (st : Store) : AuthFlowState :=
  let rtSome := ((getRefreshToken key st.durable).1).isSome
  let expired := isSessionExpired now st.durable
  if st.session.auth.isSome && rtSome && !expired then AuthFlowState.AUTHENTICATED
  else if expired || (!st.session.auth.isSome && rtSome) then AuthFlowState.LOGGED_OUT
  else
    match st.session.otpRequest with
    | some r =>
      if now - r.requestedAt < OTP_EXPIRY_MS then AuthFlowState.PENDING_OTP
      else AuthFlowState.LOGGED_OUT
    | none => AuthFlowState.LOGGED_OUT

/-- The storage effect the startup reconciliation performs, stated from
the stored facts: the durable partition self-heals a corrupted refresh
token entry; all auth storage is wiped only in the expired-or-orphaned-
refresh-token branch; a stale pending OTP is cleared; in every branch the
derived FlowState is persisted. -/
def reconcileStore (now : Int) (key : String) (st : Store) : Store :=
  let st1 : Store := { st with durable := (getRefreshToken key st.durable).2 }
  let rtSome := ((getRefreshToken key st.durable).1).isSome
  let expired := isSessionExpired now st.durable
  if st.session.auth.isSome && rtSome && !expired then
    { st1 with session := setFlowState AuthFlowState.AUTHENTICATED st1.session }
  else if expired || (!st.session.auth.isSome && rtSome) then
    clearAllAuthState st1
  else
    match st.session.otpRequest with
    | some r =>
      if now - r.requestedAt < OTP_EXPIRY_MS then
        { st1 with session := setFlowState AuthFlowState.PENDING_OTP st1.session }
      else
        { st1 with session := setFlowState AuthFlowState.LOGGED_OUT (clearOTPRequest st1.session) }
    | none => { st1 with session := setFlowState AuthFlowState.LOGGED_OUT st1.session }

lemma getRefreshToken_clearAll (key : String) (ls : LocalStorage) :
    getRefreshToken key (clearSessionMeta (clearRefreshToken ls)) =
      (none, clearSessionMeta (clearRefreshToken ls)) := by
  simp [getRefreshToken, clearSessionMeta, clearRefreshToken]

lemma initializeStateMachine_fst_flowState (now : Int) (key : String) (st : Store) :
    ((initializeStateMachine now key st).1).flowState = derivedFlowState now key st := by
  unfold initializeStateMachine derivedFlowState
  dsimp only
  rw [getCompleteAuthState_fst_isSome, getCompleteAuthState_fst_isNone,
    getCompleteAuthState_snd]
  cases hA : st.session.auth.isSome <;>
    cases hR : ((getRefreshToken key st.durable).1).isSome <;>
      cases hE : isSessionExpired now st.durable <;>
        rcases hO : st.session.otpRequest with _ | r <;>
          simp only [hA, hR, hE, hO, Bool.false_and, Bool.true_and, Bool.and_false,
            Bool.and_true, Bool.not_false, Bool.not_true, Bool.or_false, Bool.or_true,
            Bool.false_or, Bool.true_or, Bool.and_self, if_true, if_false,
            Bool.false_eq_true, Bool.true_eq_false] <;>
          first
            | (rw [getCurrentState_fst_flowState]; simp [setFlowState, clearAllAuthState,
                clearOTPRequest, clearUserProfile, clearAuthState])
            | (split <;> (rw [getCurrentState_fst_flowState]; simp [setFlowState,
                clearAllAuthState, clearOTPRequest, clearUserProfile, clearAuthState]))

lemma initializeStateMachine_snd_eq (now : Int) (key : String) (st : Store) :
    (initializeStateMachine now key st).2 = reconcileStore now key st := by
  unfold initializeStateMachine reconcileStore
  dsimp only
  rw [getCompleteAuthState_fst_isSome, getCompleteAuthState_fst_isNone,
    getCompleteAuthState_snd]
  cases hA : st.session.auth.isSome <;>
    cases hR : ((getRefreshToken key st.durable).1).isSome <;>
      cases hE : isSessionExpired now st.durable <;>
        rcases hO : st.session.otpRequest with _ | r <;>
          simp only [hA, hR, hE, hO, Bool.false_and, Bool.true_and, Bool.and_false,
            Bool.and_true, Bool.not_false, Bool.not_true, Bool.or_false, Bool.or_true,
            Bool.false_or, Bool.true_or, Bool.and_self, if_true, if_false,
            Bool.false_eq_true, Bool.true_eq_false] <;>
          first
            | (rw [getCurrentState_snd]; simp [setFlowState, clearAllAuthState,
                clearOTPRequest, clearUserProfile, clearAuthState,
                getRefreshToken_idem, getRefreshToken_clearAll])
            | (split <;> (rw [getCurrentState_snd]; simp [setFlowState, clearAllAuthState,
                clearOTPRequest, clearUserProfile, clearAuthState,
                getRefreshToken_idem, getRefreshToken_clearAll]))

lemma isSessionExpired_clear (now : Int) (ls : LocalStorage) :
    isSessionExpired now (clearSessionMeta (clearRefreshToken ls)) = true := by
  simp [isSessionExpired, clearSessionMeta, clearRefreshToken]

/-- C4 counterexample: a storage state whose session is incomplete (the
volatile auth record is present, the refresh-token entries are absent)
with a fresh sessionMeta. The claim says the reconciliation wipes all auth
storage in both partitions; in fact it derives LOGGED_OUT but leaves both
the volatile auth record and the durable sessionMeta in place (the wipe
branch fires only when the session is expired or when a refresh token is
present without the volatile record). -/
theorem initializeStateMachine_incomplete_not_wiped :
    ((initializeStateMachine 1000 "k"
        { session :=
            { auth := some { email := "user@example.com", accessToken := "at"
                             expiresAt := 100000, idToken := none, sessionCreatedAt := 0 }
              otpRequest := none, userProfile := none
              flowState := some AuthFlowState.AUTHENTICATED }
          durable :=
            { encryptedRefreshToken := none, refreshTokenIV := none
              sessionMeta := some { createdAt := 0, email := "user@example.com" } } }).1).flowState
        = AuthFlowState.LOGGED_OUT ∧
    ((initializeStateMachine 1000 "k"
        { session :=
            { auth := some { email := "user@example.com", accessToken := "at"
                             expiresAt := 100000, idToken := none, sessionCreatedAt := 0 }
              otpRequest := none, userProfile := none
              flowState := some AuthFlowState.AUTHENTICATED }
          durable :=
            { encryptedRefreshToken := none, refreshTokenIV := none
              sessionMeta := some { createdAt := 0, email := "user@example.com" } } }).2).session.auth.isSome
        = true ∧
    ((initializeStateMachine 1000 "k"
        { session :=
            { auth := some { email := "user@example.com", accessToken := "at"
                             expiresAt := 100000, idToken := none, sessionCreatedAt := 0 }
              otpRequest := none, userProfile := none
              flowState := some AuthFlowState.AUTHENTICATED }
          durable :=
            { encryptedRefreshToken := none, refreshTokenIV := none
              sessionMeta := some { createdAt := 0, email := "user@example.com" } } }).2).durable.sessionMeta.isSome
        = true := by
  refine ⟨?_, ?_, ?_⟩ <;> decide

/-- C4 (amended): the startup reconciliation derives the FlowState as:
AUTHENTICATED when both halves are present and the 7-day window has not
elapsed; LOGGED_OUT with a wipe of all auth storage when the session is
expired or a decryptable refresh token is present without the volatile
auth record; PENDING_OTP when a pending OTP younger than 5 minutes exists;
otherwise LOGGED_OUT. A volatile auth record present without a refresh
token is treated as no session but is not wiped. The full storage effect
is reconcileStore. -/
theorem initializeStateMachine_derivation (now : Int) (key : String) (st : Store) :
    ((initializeStateMachine now key st).1).flowState = derivedFlowState now key st ∧
    (initializeStateMachine now key st).2 = reconcileStore now key st :=
  ⟨initializeStateMachine_fst_flowState now key st, initializeStateMachine_snd_eq now key st⟩

/-- C9: the startup reconciliation is idempotent: running it twice in a
row against the same clock yields the same FlowState both times, for every
storage state. -/
theorem initializeStateMachine_idempotent (now : Int) (key : String) (st : Store) :
    ((initializeStateMachine now key (initializeStateMachine now key st).2).1).flowState =
      ((initializeStateMachine now key st).1).flowState := by
  rw [initializeStateMachine_fst_flowState, initializeStateMachine_fst_flowState,
    initializeStateMachine_snd_eq]
  unfold reconcileStore derivedFlowState
  dsimp only
  cases hA : st.session.auth.isSome <;>
    cases hR : ((getRefreshToken key st.durable).1).isSome <;>
      cases hE : isSessionExpired now st.durable <;>
        rcases hO : st.session.otpRequest with _ | r <;>
          simp only [hA, hR, hE, hO, Bool.false_and, Bool.true_and, Bool.and_false,
            Bool.and_true, Bool.not_false, Bool.not_true, Bool.or_false, Bool.or_true,
            Bool.false_or, Bool.true_or, Bool.and_self, if_true, if_false,
            Bool.false_eq_true, Bool.true_eq_false] <;>
          (split <;> simp_all [setFlowState, clearAllAuthState, clearOTPRequest,
                clearUserProfile, clearAuthState, getRefreshToken_idem,
                getRefreshToken_clearAll, isSessionExpired_clear, isSessionExpired_clean])

-- OTP request steps: a uniform view of handleInitiateOTP and
-- handleResendOTP for stating the rate-limit trace property, projecting
-- the response to its error code (none on success).

/-- The two OTP-requesting messages. -/
inductive OTPCall where
  | initiate
  | resend
deriving DecidableEq, Repr

/-- Error-code projection of a response. -/
def respCode {T : Type} : AuthResponse T → Option AuthErrorCode
  | .success _ => none
  | .failure code => some code

/-- One OTP request processed by the corresponding handler: the error code
(none on success), the resulting store, and whether the provider's
startOTP operation was invoked. -/
def otpCallStep (c : OTPCall) (email : String) (now : Int)
    (providerErr : Option AuthErrorCode) (st : Store) :
    Option AuthErrorCode × Store × Bool :=
  match c with
  | .initiate =>
    let r := handleInitiateOTP email now providerErr st
    (respCode r.1, r.2.1, r.2.2)
  | .resend =>
    let r := handleResendOTP email now providerErr st
    (respCode r.1, r.2.1, r.2.2)

lemma isRateLimited_none {email : String} {now : Int} {st : Store}
    (h0 : st.session.otpRequest = none) :
    isRateLimited email now st =
      { limited := false, remainingAttempts := MAX_OTP_REQUESTS, resetAt := none } := by
  simp [isRateLimited, h0]

lemma isRateLimited_within {email : String} {now : Int} {st : Store} {r : OTPRequest}
    (hreq : st.session.otpRequest = some r) (hemail : r.email = email)
    (hwin : now - r.windowStart ≤ RATE_LIMIT_WINDOW_MS) :
    isRateLimited email now st =
      { limited := decide (MAX_OTP_REQUESTS - r.attemptCount ≤ 0)
        remainingAttempts := max 0 (MAX_OTP_REQUESTS - r.attemptCount)
        resetAt := some (r.windowStart + RATE_LIMIT_WINDOW_MS) } := by
  simp [isRateLimited, hreq, hemail, not_lt.mpr hwin]

lemma otpCallStep_fresh (c : OTPCall) {email : String} (now : Int) {st : Store}
    (he : validateEmail email = true) (h0 : st.session.otpRequest = none) :
    otpCallStep c email now none st =
      (none,
       { st with session :=
           (setFlowState AuthFlowState.PENDING_OTP (setOTPRequest
             { email := email, requestedAt := now, attemptCount := 1, windowStart := now }
             st.session)) },
       true) := by
  cases c <;>
    simp [otpCallStep, handleInitiateOTP, handleResendOTP, he, isRateLimited_none h0,
      transitionToOTPPending, h0, respCode]

lemma otpCallStep_continue (c : OTPCall) {email : String} (now : Int) {st : Store}
    {r : OTPRequest} (he : validateEmail email = true)
    (hreq : st.session.otpRequest = some r) (hemail : r.email = email)
    (hwin : now - r.windowStart ≤ RATE_LIMIT_WINDOW_MS)
    (hcount : r.attemptCount < MAX_OTP_REQUESTS) :
    otpCallStep c email now none st =
      (none,
       { st with session :=
           (setFlowState AuthFlowState.PENDING_OTP (setOTPRequest
             { email := email, requestedAt := now, attemptCount := r.attemptCount + 1
               windowStart := r.windowStart }
             st.session)) },
       true) := by
  have hnl : ¬(MAX_OTP_REQUESTS - r.attemptCount ≤ 0) := by omega
  cases c <;>
    simp [otpCallStep, handleInitiateOTP, handleResendOTP, he,
      isRateLimited_within hreq hemail hwin, hnl,
      transitionToOTPPending, hreq, hemail, respCode]

lemma otpCallStep_limited (c : OTPCall) {email : String} (now : Int) {st : Store}
    {r : OTPRequest} (he : validateEmail email = true)
    (hreq : st.session.otpRequest = some r) (hemail : r.email = email)
    (hwin : now - r.windowStart ≤ RATE_LIMIT_WINDOW_MS)
    (hcount : MAX_OTP_REQUESTS ≤ r.attemptCount) :
    otpCallStep c email now none st = (some AuthErrorCode.RATE_LIMITED, st, false) := by
  have hl : MAX_OTP_REQUESTS - r.attemptCount ≤ 0 := by omega
  cases c <;>
    simp [otpCallStep, handleInitiateOTP, handleResendOTP, he,
      isRateLimited_within hreq hemail hwin, hl, respCode]

/-- C1: starting with no pending OTP, five OTP requests for a valid email
(any mix of InitiateOTP and ResendOTP) whose times stay within 15 minutes
of the first request each succeed and invoke the provider exactly once,
and a sixth request within the window returns RATE_LIMITED, does not
invoke the provider, and leaves the store unchanged. -/
theorem otp_five_requests_then_rate_limited
    (e : String) (he : validateEmail e = true)
    (st : Store) (h0 : st.session.otpRequest = none)
    (c1 c2 c3 c4 c5 c6 : OTPCall) (t1 t2 t3 t4 t5 t6 : Int)
    (hw2 : t2 - t1 ≤ RATE_LIMIT_WINDOW_MS) (hw3 : t3 - t1 ≤ RATE_LIMIT_WINDOW_MS)
    (hw4 : t4 - t1 ≤ RATE_LIMIT_WINDOW_MS) (hw5 : t5 - t1 ≤ RATE_LIMIT_WINDOW_MS)
    (hw6 : t6 - t1 ≤ RATE_LIMIT_WINDOW_MS) :
    let s1 := otpCallStep c1 e t1 none st
    let s2 := otpCallStep c2 e t2 none s1.2.1
    let s3 := otpCallStep c3 e t3 none s2.2.1
    let s4 := otpCallStep c4 e t4 none s3.2.1
    let s5 := otpCallStep c5 e t5 none s4.2.1
    let s6 := otpCallStep c6 e t6 none s5.2.1
    (s1.1 = none ∧ s1.2.2 = true) ∧ (s2.1 = none ∧ s2.2.2 = true) ∧
    (s3.1 = none ∧ s3.2.2 = true) ∧ (s4.1 = none ∧ s4.2.2 = true) ∧
    (s5.1 = none ∧ s5.2.2 = true) ∧
    (s6.1 = some AuthErrorCode.RATE_LIMITED ∧ s6.2.2 = false ∧ s6.2.1 = s5.2.1) := by
  dsimp only
  have e1 := otpCallStep_fresh c1 t1 he h0
  have hreq1 : ((otpCallStep c1 e t1 none st).2.1).session.otpRequest =
      some { email := e, requestedAt := t1, attemptCount := 1, windowStart := t1 } := by
    rw [e1]; rfl
  have e2 := otpCallStep_continue c2 t2 he hreq1 rfl hw2 (show (1:Int) < MAX_OTP_REQUESTS by decide)
  have hreq2 : ((otpCallStep c2 e t2 none
      ((otpCallStep c1 e t1 none st).2.1)).2.1).session.otpRequest =
      some { email := e, requestedAt := t2, attemptCount := 2, windowStart := t1 } := by
    rw [e2]; rfl
  have e3 := otpCallStep_continue c3 t3 he hreq2 rfl hw3 (show (2:Int) < MAX_OTP_REQUESTS by decide)
  have hreq3 : ((otpCallStep c3 e t3 none ((otpCallStep c2 e t2 none
      ((otpCallStep c1 e t1 none st).2.1)).2.1)).2.1).session.otpRequest =
      some { email := e, requestedAt := t3, attemptCount := 3, windowStart := t1 } := by
    rw [e3]; rfl
  have e4 := otpCallStep_continue c4 t4 he hreq3 rfl hw4 (show (3:Int) < MAX_OTP_REQUESTS by decide)
  have hreq4 : ((otpCallStep c4 e t4 none (otpCallStep c3 e t3 none ((otpCallStep c2 e t2 none
      ((otpCallStep c1 e t1 none st).2.1)).2.1)).2.1).2.1).session.otpRequest =
      some { email := e, requestedAt := t4, attemptCount := 4, windowStart := t1 } := by
    rw [e4]; rfl
  have e5 := otpCallStep_continue c5 t5 he hreq4 rfl hw5 (show (4:Int) < MAX_OTP_REQUESTS by decide)
  have hreq5 : ((otpCallStep c5 e t5 none (otpCallStep c4 e t4 none (otpCallStep c3 e t3 none
      ((otpCallStep c2 e t2 none
      ((otpCallStep c1 e t1 none st).2.1)).2.1)).2.1).2.1).2.1).session.otpRequest =
      some { email := e, requestedAt := t5, attemptCount := 5, windowStart := t1 } := by
    rw [e5]; rfl
  have e6 := otpCallStep_limited c6 t6 he hreq5 rfl hw6 (show MAX_OTP_REQUESTS ≤ (5:Int) by decide)
  exact ⟨⟨by rw [e1], by rw [e1]⟩, ⟨by rw [e2], by rw [e2]⟩, ⟨by rw [e3], by rw [e3]⟩,
    ⟨by rw [e4], by rw [e4]⟩, ⟨by rw [e5], by rw [e5]⟩,
    ⟨by rw [e6], by rw [e6], by rw [e6]⟩⟩

/-- Witness for C1: six InitiateOTP requests for user@example.com at one
minute apart from an empty store. -/
theorem otp_five_requests_then_rate_limited_witness :
    let st : Store :=
      { session := { auth := none, otpRequest := none, userProfile := none, flowState := none }
        durable := { encryptedRefreshToken := none, refreshTokenIV := none, sessionMeta := none } }
    let s1 := otpCallStep OTPCall.initiate "user@example.com" 0 none st
    let s2 := otpCallStep OTPCall.initiate "user@example.com" 60000 none s1.2.1
    let s3 := otpCallStep OTPCall.initiate "user@example.com" 120000 none s2.2.1
    let s4 := otpCallStep OTPCall.initiate "user@example.com" 180000 none s3.2.1
    let s5 := otpCallStep OTPCall.initiate "user@example.com" 240000 none s4.2.1
    let s6 := otpCallStep OTPCall.initiate "user@example.com" 300000 none s5.2.1
    (s1.1 = none ∧ s1.2.2 = true) ∧ (s2.1 = none ∧ s2.2.2 = true) ∧
    (s3.1 = none ∧ s3.2.2 = true) ∧ (s4.1 = none ∧ s4.2.2 = true) ∧
    (s5.1 = none ∧ s5.2.2 = true) ∧
    (s6.1 = some AuthErrorCode.RATE_LIMITED ∧ s6.2.2 = false ∧ s6.2.1 = s5.2.1) :=
  otp_five_requests_then_rate_limited "user@example.com" (by decide)
    { session := { auth := none, otpRequest := none, userProfile := none, flowState := none }
      durable := { encryptedRefreshToken := none, refreshTokenIV := none, sessionMeta := none } }
    rfl
    OTPCall.initiate OTPCall.initiate OTPCall.initiate OTPCall.initiate OTPCall.initiate
    OTPCall.initiate 0 60000 120000 180000 240000 300000
    (by decide) (by decide) (by decide) (by decide) (by decide)

/-- C8 (code bug): a new OTP request for the same email arriving after the
15-minute window has elapsed does not reset the window. With a pending
request of attemptCount 3 and windowStart 0, an InitiateOTP for the same
email at 16 minutes succeeds (the elapsed window lifts the limit) but the
stored request keeps windowStart 0 and continues to attemptCount 4,
whereas the claim (and the OTPRequest field documentation) requires
attemptCount 1 and windowStart equal to the current time. For a different
email the code does reset both fields. -/
theorem otp_window_not_reset_same_email :
    (otpCallStep OTPCall.initiate "user@example.com" 960000 none
      { session :=
          { auth := none
            otpRequest := some { email := "user@example.com", requestedAt := 0
                                 attemptCount := 3, windowStart := 0 }
            userProfile := none, flowState := some AuthFlowState.PENDING_OTP }
        durable := { encryptedRefreshToken := none, refreshTokenIV := none
                     sessionMeta := none } }).1 = none ∧
    ((otpCallStep OTPCall.initiate "user@example.com" 960000 none
      { session :=
          { auth := none
            otpRequest := some { email := "user@example.com", requestedAt := 0
                                 attemptCount := 3, windowStart := 0 }
            userProfile := none, flowState := some AuthFlowState.PENDING_OTP }
        durable := { encryptedRefreshToken := none, refreshTokenIV := none
                     sessionMeta := none } }).2.1).session.otpRequest =
      some { email := "user@example.com", requestedAt := 960000
             attemptCount := 4, windowStart := 0 } := by
  refine ⟨?_, ?_⟩ <;> decide

/-- C2 (code bug): when the provider answers the refresh call with a 4xx
(here 403 with the typical burned-refresh-token body invalid_grant), the
handler surfaces INVALID_OTP, not REFRESH_FAILED, and does not transition
to LOGGED_OUT: the refresh token stays stored and the flow state stays
AUTHENTICATED. Additionally, after any logout has cleared sessionMeta, a
repeated RefreshToken request returns SESSION_EXPIRED, never the claimed
NOT_AUTHENTICATED. -/
theorem handleRefreshToken_4xx_divergence :
    (handleRefreshToken 1000 "k" "iv1"
        (fun _ => FetchOutcome.httpError 403 { error := "invalid_grant", detail := none })
        (fun _ => 0)
        { session :=
            { auth := some { email := "user@example.com", accessToken := "at"
                             expiresAt := 700000, idToken := none, sessionCreatedAt := 0 }
              otpRequest := none, userProfile := none
              flowState := some AuthFlowState.AUTHENTICATED }
          durable :=
            { encryptedRefreshToken := some (encrypt "k" "iv0" "rt1")
              refreshTokenIV := some "iv0"
              sessionMeta := some { createdAt := 0, email := "user@example.com" } } }).1
      = AuthResponse.failure AuthErrorCode.INVALID_OTP ∧
    ((handleRefreshToken 1000 "k" "iv1"
        (fun _ => FetchOutcome.httpError 403 { error := "invalid_grant", detail := none })
        (fun _ => 0)
        { session :=
            { auth := some { email := "user@example.com", accessToken := "at"
                             expiresAt := 700000, idToken := none, sessionCreatedAt := 0 }
              otpRequest := none, userProfile := none
              flowState := some AuthFlowState.AUTHENTICATED }
          durable :=
            { encryptedRefreshToken := some (encrypt "k" "iv0" "rt1")
              refreshTokenIV := some "iv0"
              sessionMeta := some { createdAt := 0, email := "user@example.com" } } }).2).durable.encryptedRefreshToken
      = some (encrypt "k" "iv0" "rt1") ∧
    ((handleRefreshToken 1000 "k" "iv1"
        (fun _ => FetchOutcome.httpError 403 { error := "invalid_grant", detail := none })
        (fun _ => 0)
        { session :=
            { auth := some { email := "user@example.com", accessToken := "at"
                             expiresAt := 700000, idToken := none, sessionCreatedAt := 0 }
              otpRequest := none, userProfile := none
              flowState := some AuthFlowState.AUTHENTICATED }
          durable :=
            { encryptedRefreshToken := some (encrypt "k" "iv0" "rt1")
              refreshTokenIV := some "iv0"
              sessionMeta := some { createdAt := 0, email := "user@example.com" } } }).2).session.flowState
      = some AuthFlowState.AUTHENTICATED ∧
    (handleRefreshToken 1000 "k" "iv1"
        (fun _ => FetchOutcome.httpError 403 { error := "invalid_grant", detail := none })
        (fun _ => 0)
        (clearAllAuthState
          { session :=
              { auth := some { email := "user@example.com", accessToken := "at"
                               expiresAt := 700000, idToken := none, sessionCreatedAt := 0 }
                otpRequest := none, userProfile := none
                flowState := some AuthFlowState.AUTHENTICATED }
            durable :=
              { encryptedRefreshToken := some (encrypt "k" "iv0" "rt1")
                refreshTokenIV := some "iv0"
                sessionMeta := some { createdAt := 0, email := "user@example.com" } } })).1
      = AuthResponse.failure AuthErrorCode.SESSION_EXPIRED := by
  refine ⟨?_, ?_, ?_, ?_⟩ <;> decide

/-- C3 (code bug): a successful silent refresh six days into a session
preserves the volatile sessionCreatedAt (0) but overwrites the durable
sessionMeta.createdAt with the refresh time, because storeAuthState calls
setSessionMeta on every write. Consequently isSessionExpired is still
false eight days after the original login, so the 7-day session lifetime
is not enforced regardless of token validity, contrary to the claim that
sessionCreatedAt (including the durable half) is preserved. -/
theorem handleRefreshToken_restamps_sessionMeta :
    (handleRefreshToken 518400000 "k" "iv1"
        (fun _ => FetchOutcome.success
          { access_token := "at1", refresh_token := some "rt1"
            id_token := none, expires_in := 86400 })
        (fun _ => 0)
        { session :=
            { auth := some { email := "user@example.com", accessToken := "at0"
                             expiresAt := 518000000, idToken := none, sessionCreatedAt := 0 }
              otpRequest := none, userProfile := none
              flowState := some AuthFlowState.AUTHENTICATED }
          durable :=
            { encryptedRefreshToken := some (encrypt "k" "iv0" "rt0")
              refreshTokenIV := some "iv0"
              sessionMeta := some { createdAt := 0, email := "user@example.com" } } }).1
      = AuthResponse.success { expiresAt := 604800000 } ∧
    ((handleRefreshToken 518400000 "k" "iv1"
        (fun _ => FetchOutcome.success
          { access_token := "at1", refresh_token := some "rt1"
            id_token := none, expires_in := 86400 })
        (fun _ => 0)
        { session :=
            { auth := some { email := "user@example.com", accessToken := "at0"
                             expiresAt := 518000000, idToken := none, sessionCreatedAt := 0 }
              otpRequest := none, userProfile := none
              flowState := some AuthFlowState.AUTHENTICATED }
          durable :=
            { encryptedRefreshToken := some (encrypt "k" "iv0" "rt0")
              refreshTokenIV := some "iv0"
              sessionMeta := some { createdAt := 0, email := "user@example.com" } } }).2).session.auth
      = some { email := "user@example.com", accessToken := "at1"
               expiresAt := 604800000, idToken := none, sessionCreatedAt := 0 } ∧
    ((handleRefreshToken 518400000 "k" "iv1"
        (fun _ => FetchOutcome.success
          { access_token := "at1", refresh_token := some "rt1"
            id_token := none, expires_in := 86400 })
        (fun _ => 0)
        { session :=
            { auth := some { email := "user@example.com", accessToken := "at0"
                             expiresAt := 518000000, idToken := none, sessionCreatedAt := 0 }
              otpRequest := none, userProfile := none
              flowState := some AuthFlowState.AUTHENTICATED }
          durable :=
            { encryptedRefreshToken := some (encrypt "k" "iv0" "rt0")
              refreshTokenIV := some "iv0"
              sessionMeta := some { createdAt := 0, email := "user@example.com" } } }).2).durable.sessionMeta
      = some { createdAt := 518400000, email := "user@example.com" } ∧
    isSessionExpired 691200000
      ((handleRefreshToken 518400000 "k" "iv1"
        (fun _ => FetchOutcome.success
          { access_token := "at1", refresh_token := some "rt1"
            id_token := none, expires_in := 86400 })
        (fun _ => 0)
        { session :=
            { auth := some { email := "user@example.com", accessToken := "at0"
                             expiresAt := 518000000, idToken := none, sessionCreatedAt := 0 }
              otpRequest := none, userProfile := none
              flowState := some AuthFlowState.AUTHENTICATED }
          durable :=
            { encryptedRefreshToken := some (encrypt "k" "iv0" "rt0")
              refreshTokenIV := some "iv0"
              sessionMeta := some { createdAt := 0, email := "user@example.com" } } }).2).durable
      = false := by
  refine ⟨?_, ?_, ?_, ?_⟩ <;> decide

/-- C7 counterexample: a 4xx response whose error body reads server_error
maps to AUTH0_UNAVAILABLE and is therefore retried: three attempts are
made with backoff delays, refuting the claim that a 4xx response is never
retried and surfaces after exactly one attempt. -/
theorem fetchWithRetry_4xx_retried :
    (fetchWithRetry (T := Unit)
        (fun _ => FetchOutcome.httpError 400 { error := "server_error", detail := none })
        (fun _ => 0)).attempts = 3 ∧
    (fetchWithRetry (T := Unit)
        (fun _ => FetchOutcome.httpError 400 { error := "server_error", detail := none })
        (fun _ => 0)).delays = [1000, 2000] ∧
    (fetchWithRetry (T := Unit)
        (fun _ => FetchOutcome.httpError 400 { error := "server_error", detail := none })
        (fun _ => 0)).result
      = Except.error (FetchError.authErr AuthErrorCode.AUTH0_UNAVAILABLE) := by
  exact ⟨by decide, by decide, rfl⟩

/-- C7 (amended): the retry loop makes up to 3 attempts; an attempt is
retried exactly when it throws a retryable error (a transport failure, or
an AuthError whose code is NETWORK_ERROR or AUTH0_UNAVAILABLE, which
covers 5xx responses, other non-ok non-4xx statuses, and 4xx bodies that
map to those codes); a non-retryable error (the typical 4xx) surfaces
after exactly one attempt with no delay; and the delay before the retry
following attempt i is 1000 times 2 to the i milliseconds plus a jitter in
[0, 500), capped at 5000 (the cap never binds within two retries). -/
theorem fetchWithRetry_retry_policy {T : Type} (outcomes : Nat → FetchOutcome T)
    (jitter : Nat → Nat) (hj : ∀ n, jitter n < 500) :
    (∀ v, attemptOnce (outcomes 0) = .ok v →
      fetchWithRetry outcomes jitter = { result := .ok v, attempts := 1, delays := [] }) ∧
    (∀ e, attemptOnce (outcomes 0) = .error e → isRetryableError e = false →
      fetchWithRetry outcomes jitter = { result := .error e, attempts := 1, delays := [] }) ∧
    (∀ e0 v, attemptOnce (outcomes 0) = .error e0 → isRetryableError e0 = true →
      attemptOnce (outcomes 1) = .ok v →
      fetchWithRetry outcomes jitter =
        { result := .ok v, attempts := 2, delays := [getRetryDelay 0 (jitter 0)] }) ∧
    (∀ e0 e1, attemptOnce (outcomes 0) = .error e0 → isRetryableError e0 = true →
      attemptOnce (outcomes 1) = .error e1 → isRetryableError e1 = false →
      fetchWithRetry outcomes jitter =
        { result := .error e1, attempts := 2, delays := [getRetryDelay 0 (jitter 0)] }) ∧
    (∀ e0 e1 v, attemptOnce (outcomes 0) = .error e0 → isRetryableError e0 = true →
      attemptOnce (outcomes 1) = .error e1 → isRetryableError e1 = true →
      attemptOnce (outcomes 2) = .ok v →
      fetchWithRetry outcomes jitter =
        { result := .ok v, attempts := 3
          delays := [getRetryDelay 0 (jitter 0), getRetryDelay 1 (jitter 1)] }) ∧
    (∀ e0 e1 e2, attemptOnce (outcomes 0) = .error e0 → isRetryableError e0 = true →
      attemptOnce (outcomes 1) = .error e1 → isRetryableError e1 = true →
      attemptOnce (outcomes 2) = .error e2 →
      fetchWithRetry outcomes jitter =
        { result := .error e2, attempts := 3
          delays := [getRetryDelay 0 (jitter 0), getRetryDelay 1 (jitter 1)] }) ∧
    (∀ i, i < 2 → 1000 * 2 ^ i ≤ getRetryDelay i (jitter i) ∧
      getRetryDelay i (jitter i) < 1000 * 2 ^ i + 500) := by
  refine ⟨?_, ?_, ?_, ?_, ?_, ?_, ?_⟩
  · intro v h0
    simp [fetchWithRetry, MAX_RETRIES, fetchLoop, h0]
  · intro e h0 hr
    simp [fetchWithRetry, MAX_RETRIES, fetchLoop, h0, hr]
  · intro e0 v h0 hr0 h1
    simp [fetchWithRetry, MAX_RETRIES, fetchLoop, h0, hr0, h1]
  · intro e0 e1 h0 hr0 h1 hr1
    simp [fetchWithRetry, MAX_RETRIES, fetchLoop, h0, hr0, h1, hr1]
  · intro e0 e1 v h0 hr0 h1 hr1 h2
    simp [fetchWithRetry, MAX_RETRIES, fetchLoop, h0, hr0, h1, hr1, h2]
  · intro e0 e1 e2 h0 hr0 h1 hr1 h2
    simp [fetchWithRetry, MAX_RETRIES, fetchLoop, h0, hr0, h1, hr1, h2]
  · intro i hi
    have hji := hj i
    interval_cases i <;>
      simp [getRetryDelay] <;> omega

/-- Witness for C7 (amended) at concrete oracles: all three attempts are
transport failures with zero jitter, giving three attempts and the delays
1000 and 2000. -/
theorem fetchWithRetry_retry_policy_witness :
    fetchWithRetry (T := Unit) (fun _ => FetchOutcome.transport) (fun _ => 0) =
      { result := .error FetchError.transportErr, attempts := 3, delays := [1000, 2000] } :=
  (fetchWithRetry_retry_policy (T := Unit) (fun _ => FetchOutcome.transport) (fun _ => 0)
      (by intro n; norm_num)).2.2.2.2.2.1 FetchError.transportErr FetchError.transportErr
    FetchError.transportErr rfl rfl rfl rfl rfl

end Auth0Ext
